import Mathlib

/-!
Verification of the `node-hid` binding (`src/HID.cc`) against its
natural-language specification.

The file shallowly embeds the marshalling layer of `HID.cc`: the `HID`
object's state, the NAN-exposed methods (`write`, `close`, `setNonBlocking`,
`getFeatureReport`, `sendFeatureReport`, `devices`) and the asynchronous read
pipeline (`recvAsync` / `readResultsToJSCallbackArguments` / `recvAsyncDone`).

External native calls (`hid_write`, `hid_read`, `hid_set_nonblocking`,
`hid_get_feature_report`, `hid_send_feature_report`, `hid_enumerate`) are
passed in as oracle functions, and each embedded method records the list of
native invocations it performs, so that theorems can speak both about the
JavaScript-visible result and about what reached the native layer.

A key semantic point of the embedding: in the nan version used by this code,
`NanThrowError` only records a pending JavaScript exception; it does not
return from the enclosing method.  `HID.cc` never writes `return` in front of
`NanThrowError`, so execution continues past every such error site.  The
embedding therefore accumulates pending errors in a list while execution
proceeds; the JavaScript-visible outcome of a call is the last pending error
if any was raised, and the method's return value otherwise.
-/

set_option autoImplicit false

namespace NodeHID

/-- ECMAScript `ToInt32` (what v8's `Int32Value` applies to an integral
number): reduce modulo 2^32 into the signed 32-bit range. -/
def toInt32 (v : Int) : Int :=
  if v % 4294967296 < 2147483648 then v % 4294967296 else v % 4294967296 - 4294967296

/-- ECMAScript `ToUint32` (what v8's `ToUint32()->Value()` applies to an
integral number): reduce modulo 2^32. -/
def toUint32 (v : Int) : Nat :=
  (v % 4294967296).toNat

/-- The C cast `(unsigned char) x` applied to a 32-bit integer value:
truncation modulo 2^8. -/
def toUChar (v : Int) : Nat :=
  (v % 256).toNat

/-- JavaScript values, as far as the binding's methods inspect them.
Numbers are modelled at integral values only (the only values the claims
are about); everything the methods treat as "not a number / not given" is
`undef`. -/
inductive JSVal where
  | num (v : Int)
  | arr (elems : List JSVal)
  | undef

/-- `IsNumber()` on a v8 value. -/
def JSVal.isNum : JSVal → Bool
  | .num _ => true
  | _ => false

/-- v8 `Int32Value()`: `ToInt32` for numbers; `undefined` (e.g. a missing
argument) coerces to 0. -/
def int32Value : JSVal → Int
  | .num v => toInt32 v
  | _ => 0

/-- v8 `ToUint32()->Value()`: `ToUint32` for numbers; `undefined` coerces
to 0. -/
def uint32Value : JSVal → Nat
  | .num v => toUint32 v
  | _ => 0

/-- State of one `HID` object (`src/HID.cc`, class `HID`): the nullable
native handle `_hidHandle`, plus an instrumentation counter `releases`
recording how many times `hid_close` has been invoked on this object. -/
structure HID where
  _hidHandle : Option Nat
  releases : Nat := 0
deriving DecidableEq, Repr

/-- `HID::close` (`src/HID.cc` lines 138-145): if `_hidHandle` is non-null,
call `hid_close` and null the handle; otherwise do nothing. -/
def HID.close (s : HID) : HID :=
  match s._hidHandle with
  | some _ => { _hidHandle := none, releases := s.releases + 1 }
  | none => s

/-- Outcome of one embedded NAN method call: the pending JavaScript errors
raised via `NanThrowError` (in order), the native calls performed (in
order), and the v8 return value. -/
structure MethodOutcome (α : Type) (β : Type) where
  pendingErrors : List String
  nativeCalls : List α
  retval : β
deriving Repr

/-- The JavaScript-visible result of a method call: if any exception is
pending when the method returns, the last one thrown propagates and the
return value is discarded; otherwise the return value is delivered. -/
def jsResult {α β : Type} (o : MethodOutcome α β) : Except String β :=
  match o.pendingErrors.reverse with
  | [] => .ok o.retval
  | e :: _ => .error e

/-- The element conversion both `HID::write` (line 418) and
`HID::sendFeatureReport` (line 307) apply to each array element:
`(unsigned char) elem->Int32Value()`. -/
def elemToByte (e : JSVal) : Nat :=
  toUChar (int32Value e)

/-- The message-building loop shared by `HID::write` (lines 412-419) and
`HID::sendFeatureReport` (lines 301-308): convert each element with
`(unsigned char) Int32Value()`, but throw a C++ `JSException` on the first
element that is not a number (modelled as `none`: the message is never
used on that path). -/
def buildMessage (elems : List JSVal) : Option (List Nat) :=
  if elems.all JSVal.isNum then some (elems.map elemToByte) else none

/-- `NAN_METHOD(HID::write)` (`src/HID.cc` lines 401-428) together with the
inner `HID::write` (lines 158-174).  The arity check raises a pending error
but does not return; the message is copied byte-for-byte into the transport
buffer handed to one `hid_write` call; a negative native result raises
"Cannot write to HID device"; the method returns `undefined`.
`Local<Array>::Cast` on a non-array argument is undefined behaviour,
modelled as `none`. -/
def writeNAN (hid_write : Option Nat → List Nat → Int) (s : HID) (args : List JSVal) :
    Option (MethodOutcome (Option Nat × List Nat) JSVal) :=
  let errs := if args.length = 1 then [] else ["HID write requires one argument"]
  match args.getD 0 .undef with
  | .arr elems =>
    match buildMessage elems with
    | some message =>
      let res := hid_write s._hidHandle message
      some { pendingErrors := errs ++ (if res < 0 then ["Cannot write to HID device"] else []),
             nativeCalls := [(s._hidHandle, message)],
             retval := .undef }
    | none =>
      some { pendingErrors :=
               errs ++ ["unexpected array element in array to send, expecting only integers"],
             nativeCalls := [],
             retval := .undef }
  | _ => none

/-- `NAN_METHOD(HID::setNonBlocking)` (`src/HID.cc` lines 381-399) together
with the inner `HID::setNonBlocking` (lines 147-156).  The arity check
raises a pending error but does not return; `hid_set_nonblocking` is then
called unconditionally with `args[0]->Int32Value()` (0 when the argument is
missing); a negative native result raises the mode error. -/
def setNonBlockingNAN (hid_set_nonblocking : Option Nat → Int → Int) (s : HID)
    (args : List JSVal) : MethodOutcome (Option Nat × Int) JSVal :=
  let errs := if args.length = 1 then []
              else ["Expecting a 1 to enable, 0 to disable as the first argument."]
  let blockStatus := int32Value (args.getD 0 .undef)
  let res := hid_set_nonblocking s._hidHandle blockStatus
  { pendingErrors := errs ++ (if res < 0 then ["Error setting non-blocking mode."] else []),
    nativeCalls := [(s._hidHandle, blockStatus)],
    retval := .undef }

/-- The transfer buffer `HID::getFeatureReport` allocates (lines 271-272):
`new unsigned char[bufSize]` with only byte 0 written (`buf[0] = reportId`).
`junk` models the uninitialized contents of the fresh allocation. -/
def seededBuf (junk : Nat → Nat) (bufSize reportId : Nat) : List Nat :=
  ((List.range bufSize).map junk).set 0 reportId

/-- `NAN_METHOD(HID::getFeatureReport)` (`src/HID.cc` lines 258-287).
The arity / non-zero-length check raises a pending error but does not
return; the buffer of size `args[1]->ToUint32()` is seeded with the report
id (`args[0]->ToUint32()` narrowed to `uint8_t`) in byte 0 and handed to
`hid_get_feature_report`, which reports a length and leaves the buffer's
post-call contents; a returned length of -1 raises the read error; the
returned array holds the first `returnedLength` buffer bytes (none when the
length is negative, since the copy loop does not run). -/
def getFeatureReportNAN (hid_get_feature_report : Option Nat → List Nat → Int × List Nat)
    (s : HID) (args : List JSVal) (junk : Nat → Nat) :
    MethodOutcome (Option Nat × List Nat) (List Nat) :=
  let errs0 := if args.length = 2 ∧ uint32Value (args.getD 1 .undef) ≠ 0 then []
               else ["need report ID and non-zero length parameter in getFeatureReport"]
  let reportId := uint32Value (args.getD 0 .undef) % 256
  let bufSize := uint32Value (args.getD 1 .undef)
  let buf := seededBuf junk bufSize reportId
  let r := hid_get_feature_report s._hidHandle buf
  { pendingErrors := errs0 ++ (if r.1 = -1 then ["could not get feature report from device"] else []),
    nativeCalls := [(s._hidHandle, buf)],
    retval := r.2.take r.1.toNat }

/-- `NAN_METHOD(HID::sendFeatureReport)` (`src/HID.cc` lines 290-325).
The arity check raises a pending error but does not return; the message is
built with the shared element conversion and handed to one
`hid_send_feature_report` call; a returned length of -1 raises the send
error; otherwise the returned length is the return value.  A non-number
array element throws a C++ exception with no enclosing handler, and a
non-array argument is undefined behaviour; both are modelled as `none`. -/
def sendFeatureReportNAN (hid_send_feature_report : Option Nat → List Nat → Int) (s : HID)
    (args : List JSVal) : Option (MethodOutcome (Option Nat × List Nat) JSVal) :=
  let errs := if args.length = 1 then []
              else ["need report (including id in first byte) only in sendFeatureReport"]
  match args.getD 0 .undef with
  | .arr elems =>
    match buildMessage elems with
    | some message =>
      let res := hid_send_feature_report s._hidHandle message
      some { pendingErrors :=
               errs ++ (if res = -1 then ["could not send feature report to device"] else []),
             nativeCalls := [(s._hidHandle, message)],
             retval := .num res }
    | none => none
  | _ => none

/-- The result record of one in-flight asynchronous read
(`struct ReceiveIOCB`, `src/HID.cc` lines 91-109): either an error message
or the bytes read. -/
structure ReceiveIOCB where
  _error : Option String
  _data : List Nat
deriving DecidableEq, Repr

/-- `HID::recvAsync` (`src/HID.cc` lines 176-189), run on the worker thread.
`hid_read` is an oracle from the handle to the returned length and the
1024-byte buffer's post-call contents.  The first component of the result
records the handle passed to `hid_read`; the second is the filled-in
`ReceiveIOCB`: on a negative length, the error is set and the data left
empty; otherwise the data is the first `len` buffer bytes. -/
def recvAsync (hid_read : Option Nat → Int × List Nat) (hidHandle : Option Nat) :
    List (Option Nat) × ReceiveIOCB :=
  let r := hid_read hidHandle
  ([hidHandle],
   if r.1 < 0 then { _error := some "could not read from HID device", _data := [] }
   else { _error := none, _data := r.2.take r.1.toNat })

/-- `HID::readResultsToJSCallbackArguments` (`src/HID.cc` lines 191-212):
given the two-slot `argv`, set slot 0 to the error when one was recorded,
and otherwise set slot 1 to a buffer holding exactly the recorded bytes. -/
def readResultsToJSCallbackArguments (iocb : ReceiveIOCB)
    (argv : Option String × Option (List Nat)) : Option String × Option (List Nat) :=
  match iocb._error with
  | some e => (some e, argv.2)
  | none => (argv.1, some iocb._data)

/-- `HID::recvAsyncDone` (`src/HID.cc` lines 214-237), run back on the
owning context: initialize `argv` to `(undefined, undefined)`, fill it from
the `ReceiveIOCB`, and invoke the completion callback once with the two
slots.  The result is the list of callback invocations performed, each
carrying its `(error, data)` argument pair. -/
def recvAsyncDone (iocb : ReceiveIOCB) : List (Option String × Option (List Nat)) :=
  [readResultsToJSCallbackArguments iocb (none, none)]

/-- One record of the external `hid_enumerate` linked list
(`struct hid_device_info` of hidapi), with nullable pointer fields as
options and wide strings as lists of character codes. -/
structure HidDeviceInfo where
  vendor_id : Nat
  product_id : Nat
  path : Option (List Nat)
  serial_number : Option (List Nat)
  manufacturer_string : Option (List Nat)
  product_string : Option (List Nat)
  release_number : Nat
  interface_number : Int
  usage_page : Nat
  usage : Nat
deriving DecidableEq, Repr

/-- Modelled from the spec: `hid_enumerate` is part of the external hidapi
library, not of this repository.  Per the spec, it returns the attached
devices matching the filter, where a zero vendor (resp. product) id matches
any vendor (resp. product) and a non-zero id requires an exact match.
`world` is the list of currently attached devices. -/
def hid_enumerate (world : List HidDeviceInfo) (vendor_id product_id : Nat) :
    List HidDeviceInfo :=
  world.filter fun d =>
    (vendor_id == 0 || d.vendor_id == vendor_id) && (product_id == 0 || d.product_id == product_id)

/-- `narrow` (`src/HID.cc` lines 430-439).  The source streams
`os.narrow(ws[i], <question mark>)` into a `char`-based `ostringstream`:
`basic_ios<char>::narrow` takes a `char`, so the `wchar_t` is implicitly
converted (truncated modulo 2^8) at the call, and `ctype<char>::narrow` is
the identity on `char` — the question-mark default (code 63) is never used. -/
def narrow (ws : List Nat) : List Nat :=
  ws.map fun c => c % 256

/-- One element of the array returned by `HID::devices`
(`src/HID.cc` lines 467-487): the optional string properties are set only
when the corresponding native pointer is non-null (`path` verbatim, the
wide strings through `narrow`), and the numeric properties are always
set. -/
structure DeviceDescriptor where
  vendorId : Nat
  productId : Nat
  path : Option (List Nat)
  serialNumber : Option (List Nat)
  manufacturer : Option (List Nat)
  product : Option (List Nat)
  release : Nat
  interface : Int
  usagePage : Nat
  usage : Nat
deriving DecidableEq, Repr

/-- The per-device body of the loop in `HID::devices`
(`src/HID.cc` lines 467-487). -/
def descriptorOf (d : HidDeviceInfo) : DeviceDescriptor :=
  { vendorId := d.vendor_id
    productId := d.product_id
    path := d.path
    serialNumber := d.serial_number.map narrow
    manufacturer := d.manufacturer_string.map narrow
    product := d.product_string.map narrow
    release := d.release_number
    interface := d.interface_number
    usagePage := d.usage_page
    usage := d.usage }

/-- `NAN_METHOD(HID::devices)` (`src/HID.cc` lines 441-491).  With no
arguments the filter ids stay 0; with two arguments they are the arguments'
`Int32Value`s; any other arity raises a pending error (which does not
return) and leaves the ids 0.  The ids are then narrowed to
`unsigned short` at the `hid_enumerate` call, whose matching devices are
marshalled through `descriptorOf`. -/
def devicesNAN (world : List HidDeviceInfo) (args : List JSVal) :
    MethodOutcome (Nat × Nat) (List DeviceDescriptor) :=
  let errs :=
    if args.length = 0 ∨ args.length = 2 then []
    else ["unexpected number of arguments to HID.devices() call, expecting either no arguments or vendor and product ID"]
  let vendorId : Int := if args.length = 2 then int32Value (args.getD 0 .undef) else 0
  let productId : Int := if args.length = 2 then int32Value (args.getD 1 .undef) else 0
  let vidUS := (vendorId % 65536).toNat
  let pidUS := (productId % 65536).toNat
  { pendingErrors := errs
    nativeCalls := [(vidUS, pidUS)]
    retval := (hid_enumerate world vidUS pidUS).map descriptorOf }

/-- A concrete device record whose serial number is the single wide
character U+263A (code 9786), used as a concrete enumeration input. -/
def smileDevice : HidDeviceInfo :=
  { vendor_id := 1, product_id := 2, path := none, serial_number := some [9786],
    manufacturer_string := none, product_string := none, release_number := 0,
    interface_number := 0, usage_page := 0, usage := 0 }

/-- A concrete device record with ordinary fields, used as a concrete
enumeration input. -/
def sampleDevice : HidDeviceInfo :=
  { vendor_id := 1133, product_id := 50219, path := some [47], serial_number := none,
    manufacturer_string := none, product_string := none, release_number := 1,
    interface_number := 0, usage_page := 1, usage := 6 }

/-! ### Helper lemmas -/

/-- Casting `Int32Value` to `unsigned char` is truncation modulo 2^8. -/
theorem toUChar_toInt32 (v : Int) : toUChar (toInt32 v) = (v % 256).toNat := by
  unfold toUChar toInt32
  split <;> omega

/-- `buildMessage` on an all-number array yields the mod-2^8 reductions. -/
theorem buildMessage_map_num (vs : List Int) :
    buildMessage (vs.map .num) = some (vs.map fun v => (v % 256).toNat) := by
  unfold buildMessage
  rw [if_pos]
  · rw [List.map_map]
    exact congrArg some (congrArg (fun f => List.map f vs) (funext fun v => toUChar_toInt32 v))
  · simp [JSVal.isNum]

/-- A method outcome whose pending-error list is a one-error conditional
delivers that error, and otherwise its return value. -/
theorem jsResult_if {α β : Type} (c : Prop) [Decidable c] (m : String) (calls : List α)
    (r : β) :
    jsResult { pendingErrors := if c then [m] else [], nativeCalls := calls, retval := r } =
      if c then .error m else .ok r := by
  by_cases hc : c <;> simp [jsResult, hc]

/-- A method call with a pending error never delivers an `ok` result. -/
theorem jsResult_ne_ok_of_pending {α β : Type} (o : MethodOutcome α β)
    (h : o.pendingErrors ≠ []) : ∀ v, jsResult o ≠ .ok v := by
  intro v
  unfold jsResult
  split
  · rename_i heq
    exact absurd (List.reverse_eq_nil_iff.mp heq) h
  · simp

/-- Evaluation of `writeNAN` on a single all-number array argument. -/
theorem writeNAN_arr_num (hid_write : Option Nat → List Nat → Int) (s : HID)
    (vs : List Int) :
    writeNAN hid_write s [.arr (vs.map .num)] =
      some { pendingErrors := if hid_write s._hidHandle (vs.map fun v => (v % 256).toNat) < 0
                              then ["Cannot write to HID device"] else []
             nativeCalls := [(s._hidHandle, vs.map fun v => (v % 256).toNat)]
             retval := .undef } := by
  simp [writeNAN, buildMessage_map_num]

/-- Evaluation of `sendFeatureReportNAN` on a single all-number array
argument. -/
theorem sendFeatureReportNAN_arr_num (hid_send_feature_report : Option Nat → List Nat → Int)
    (s : HID) (vs : List Int) :
    sendFeatureReportNAN hid_send_feature_report s [.arr (vs.map .num)] =
      some { pendingErrors :=
               if hid_send_feature_report s._hidHandle (vs.map fun v => (v % 256).toNat) = -1
               then ["could not send feature report to device"] else []
             nativeCalls := [(s._hidHandle, vs.map fun v => (v % 256).toNat)]
             retval := .num (hid_send_feature_report s._hidHandle
                              (vs.map fun v => (v % 256).toNat)) } := by
  simp [sendFeatureReportNAN, buildMessage_map_num]

/-- A non-empty seeded buffer starts with the seeded report id. -/
theorem seededBuf_head (junk : Nat → Nat) (n r : Nat) (hn : n ≠ 0) :
    (seededBuf junk n r).head? = some r := by
  cases n with
  | zero => exact absurd rfl hn
  | succ m =>
    rw [seededBuf, List.range_succ_eq_map, List.map_cons]
    rfl

/-- The seeded buffer has exactly the requested size. -/
theorem seededBuf_length (junk : Nat → Nat) (n r : Nat) : (seededBuf junk n r).length = n := by
  simp [seededBuf]

/-- Evaluation of `getFeatureReportNAN` on two numeric arguments with a
non-zero coerced length. -/
theorem getFeatureReportNAN_num (hid_get_feature_report : Option Nat → List Nat → Int × List Nat)
    (s : HID) (rid len : Int) (junk : Nat → Nat) (hlen : toUint32 len ≠ 0) :
    getFeatureReportNAN hid_get_feature_report s [.num rid, .num len] junk =
      { pendingErrors :=
          if (hid_get_feature_report s._hidHandle
                (seededBuf junk (toUint32 len) (toUint32 rid % 256))).1 = -1
          then ["could not get feature report from device"] else []
        nativeCalls := [(s._hidHandle, seededBuf junk (toUint32 len) (toUint32 rid % 256))]
        retval := (hid_get_feature_report s._hidHandle
                     (seededBuf junk (toUint32 len) (toUint32 rid % 256))).2.take
                    (hid_get_feature_report s._hidHandle
                      (seededBuf junk (toUint32 len) (toUint32 rid % 256))).1.toNat } := by
  simp [getFeatureReportNAN, uint32Value, hlen]

/-- Evaluation of `devicesNAN` on two numeric arguments. -/
theorem devicesNAN_two_num (world : List HidDeviceInfo) (v p : Int) :
    devicesNAN world [.num v, .num p] =
      { pendingErrors := []
        nativeCalls := [((toInt32 v % 65536).toNat, (toInt32 p % 65536).toNat)]
        retval := (hid_enumerate world (toInt32 v % 65536).toNat
                    (toInt32 p % 65536).toNat).map descriptorOf } := by
  simp [devicesNAN, int32Value]

/-- A zero/zero filter matches every attached device. -/
theorem hid_enumerate_zero (world : List HidDeviceInfo) : hid_enumerate world 0 0 = world := by
  simp [hid_enumerate]

/-- Membership in the spec-modelled enumeration result. -/
theorem mem_hid_enumerate (world : List HidDeviceInfo) (a b : Nat) (x : HidDeviceInfo) :
    x ∈ hid_enumerate world a b ↔
      x ∈ world ∧ (a = 0 ∨ x.vendor_id = a) ∧ (b = 0 ∨ x.product_id = b) := by
  simp [hid_enumerate, List.mem_filter]

/-! ### Claims -/

/-- C9: in `write(bytes)` and `sendFeatureReport(bytes)`, every numeric array
element is reduced to a byte by truncation modulo 2^8 (the cast of its
32-bit integer value to `unsigned char`) before being placed in the
transport buffer handed to the native call, and out-of-range values are not
rejected: the only pending errors are those the native result produces. -/
theorem array_elements_truncated_mod_256
    (hid_write : Option Nat → List Nat → Int)
    (hid_send_feature_report : Option Nat → List Nat → Int)
    (s : HID) (vs : List Int) :
    (writeNAN hid_write s [.arr (vs.map .num)]).map (fun o => o.nativeCalls) =
      some [(s._hidHandle, vs.map fun v => (v % 256).toNat)] ∧
    (sendFeatureReportNAN hid_send_feature_report s [.arr (vs.map .num)]).map
        (fun o => o.nativeCalls) =
      some [(s._hidHandle, vs.map fun v => (v % 256).toNat)] ∧
    (writeNAN hid_write s [.arr (vs.map .num)]).map (fun o => o.pendingErrors) =
      some (if hid_write s._hidHandle (vs.map fun v => (v % 256).toNat) < 0
            then ["Cannot write to HID device"] else []) := by
  refine ⟨?_, ?_, ?_⟩ <;>
    simp [writeNAN, sendFeatureReportNAN, buildMessage_map_num]

/-- C3: `close()` is idempotent: the first call on an open handle releases
the native resource exactly once (one `hid_close`) and nulls the handle's
resource reference; every subsequent call is a no-op with no error and no
second release. -/
theorem close_idempotent (s : HID) (h : Nat) (hs : s._hidHandle = some h) :
    s.close._hidHandle = none ∧
    s.close.releases = s.releases + 1 ∧
    s.close.close = s.close ∧
    (∀ t : HID, t._hidHandle = none → t.close = t) := by
  refine ⟨?_, ?_, ?_, ?_⟩
  · unfold HID.close
    rw [hs]
  · unfold HID.close
    rw [hs]
  · unfold HID.close
    rw [hs]
  · intro t ht
    unfold HID.close
    rw [ht]

/-- Witness for C3 at a concrete open handle. -/
theorem close_idempotent_witness :
    ({ _hidHandle := some 5, releases := 0 } : HID).close._hidHandle = none :=
  (close_idempotent { _hidHandle := some 5, releases := 0 } 5 rfl).1

/-- C1: for an asynchronous read, the completion callback is invoked exactly
once with a two-slot `(error, data)` result: when the native `hid_read`
returns a non-negative length `n`, the error slot is undefined and the data
slot holds exactly the first `n` bytes of the 1024-byte buffer (so `n` may
be less than 1024); when it returns a negative length, the data slot is
undefined and the error slot carries the read-failure error. -/
theorem read_callback_shape (hid_read : Option Nat → Int × List Nat) (h : Option Nat)
    (hlen : (hid_read h).1 ≤ 1024) (hbuf : (hid_read h).2.length = 1024) :
    (recvAsyncDone (recvAsync hid_read h).2).length = 1 ∧
    ((hid_read h).1 < 0 →
      recvAsyncDone (recvAsync hid_read h).2 =
        [(some "could not read from HID device", none)]) ∧
    (0 ≤ (hid_read h).1 →
      recvAsyncDone (recvAsync hid_read h).2 =
        [(none, some ((hid_read h).2.take (hid_read h).1.toNat))] ∧
      ((hid_read h).2.take (hid_read h).1.toNat).length = (hid_read h).1.toNat) := by
  have h2 : (recvAsync hid_read h).2 =
      (if (hid_read h).1 < 0 then
        ({ _error := some "could not read from HID device", _data := [] } : ReceiveIOCB)
       else
        { _error := none, _data := (hid_read h).2.take (hid_read h).1.toNat }) := rfl
  refine ⟨rfl, ?_, ?_⟩
  · intro hneg
    rw [h2, if_pos hneg]
    rfl
  · intro hpos
    constructor
    · rw [h2, if_neg (not_lt.mpr hpos)]
      rfl
    · rw [List.length_take, hbuf]
      omega

/-- Witness for C1 at a concrete native read of 2 bytes. -/
theorem read_callback_shape_witness :
    (recvAsyncDone (recvAsync (fun _ => ((2 : Int), List.replicate 1024 0)) (some 0)).2).length
      = 1 :=
  (read_callback_shape (fun _ => ((2 : Int), List.replicate 1024 0)) (some 0) (by decide)
    (List.length_replicate 1024 0)).1

/-- C2 counterexample: on a handle that has been closed, `write([1])` with a
native write reporting success does not fail at all — no pending error, no
"device closed"/AlreadyClosed — and the native layer is invoked (with the
nulled handle), refuting the claim that every post-close operation fails
with AlreadyClosed without invoking the native resource. -/
theorem write_after_close_reaches_native_cx :
    writeNAN (fun _ _ => 3) ({ _hidHandle := some 7, releases := 0 } : HID).close
        [.arr [.num 1]] =
      some { pendingErrors := [], nativeCalls := [(none, [1])], retval := .undef } := rfl

/-- C2 (amended): after `close()` the handle's resource reference is null,
but no operation checks for that: `write`, `setNonBlocking`,
`getFeatureReport`, `sendFeatureReport` and the async-read worker each pass
the nulled handle directly to the underlying native call (no AlreadyClosed
error exists; e.g. `setNonBlocking` with a valid argument and a
non-negative native result even succeeds on a closed handle). -/
theorem post_close_operations_pass_null_handle
    (hid_write : Option Nat → List Nat → Int)
    (hid_set_nonblocking : Option Nat → Int → Int)
    (hid_get_feature_report : Option Nat → List Nat → Int × List Nat)
    (hid_send_feature_report : Option Nat → List Nat → Int)
    (hid_read : Option Nat → Int × List Nat)
    (s : HID) (hs : s._hidHandle = none)
    (vs : List Int) (a rid len : Int) (junk : Nat → Nat) :
    (writeNAN hid_write s [.arr (vs.map .num)]).map (fun o => o.nativeCalls) =
      some [(none, vs.map fun v => (v % 256).toNat)] ∧
    (setNonBlockingNAN hid_set_nonblocking s [.num a]).nativeCalls = [(none, toInt32 a)] ∧
    (getFeatureReportNAN hid_get_feature_report s [.num rid, .num len] junk).nativeCalls =
      [(none, seededBuf junk (toUint32 len) (toUint32 rid % 256))] ∧
    (sendFeatureReportNAN hid_send_feature_report s [.arr (vs.map .num)]).map
        (fun o => o.nativeCalls) = some [(none, vs.map fun v => (v % 256).toNat)] ∧
    (recvAsync hid_read s._hidHandle).1 = [none] ∧
    (0 ≤ hid_set_nonblocking none (toInt32 a) →
      jsResult (setNonBlockingNAN hid_set_nonblocking s [.num a]) = .ok .undef) := by
  refine ⟨?_, ?_, ?_, ?_, ?_, ?_⟩
  · rw [writeNAN_arr_num, hs]
    rfl
  · simp [setNonBlockingNAN, hs, int32Value]
  · simp [getFeatureReportNAN, hs, seededBuf, uint32Value]
  · rw [sendFeatureReportNAN_arr_num, hs]
    rfl
  · rw [recvAsync, hs]
  · intro hres
    have : setNonBlockingNAN hid_set_nonblocking s [.num a] =
        { pendingErrors := if hid_set_nonblocking s._hidHandle (toInt32 a) < 0
                           then ["Error setting non-blocking mode."] else []
          nativeCalls := [(s._hidHandle, toInt32 a)]
          retval := .undef } := by
      simp [setNonBlockingNAN, int32Value]
    rw [this, jsResult_if, hs, if_neg (not_lt.mpr hres)]

/-- Witness for the amended C2 at a concrete closed handle. -/
theorem post_close_operations_pass_null_handle_witness :
    (setNonBlockingNAN (fun _ _ => (0 : Int)) { _hidHandle := none, releases := 1 }
      [.num 1]).nativeCalls = [(none, 1)] :=
  ((post_close_operations_pass_null_handle (fun _ _ => 0) (fun _ _ => 0) (fun _ b => (0, b))
    (fun _ _ => 0) (fun _ => (0, [])) { _hidHandle := none, releases := 1 } rfl [1] 1 1 2
    (fun _ => 0)).2.1).trans (by decide)

/-- C5 counterexample: with a native `hid_write` reporting 3 bytes written,
`write([0x01, 0x02, 0x03])` on an open handle succeeds but returns
`undefined`, not 3 — refuting the claim that on success `write` returns the
number of bytes written. -/
theorem write_returns_undefined_cx :
    writeNAN (fun _ _ => 3) { _hidHandle := some 7, releases := 0 }
        [.arr [.num 1, .num 2, .num 3]] =
      some { pendingErrors := [], nativeCalls := [(some 7, [1, 2, 3])], retval := .undef } ∧
    (writeNAN (fun _ _ => 3) { _hidHandle := some 7, releases := 0 }
        [.arr [.num 1, .num 2, .num 3]]).map (fun o => jsResult o) ≠
      some (.ok (.num 3)) := by
  refine ⟨rfl, ?_⟩
  intro hcontra
  rw [show writeNAN (fun _ _ => 3) { _hidHandle := some 7, releases := 0 }
        [.arr [.num 1, .num 2, .num 3]] =
      some { pendingErrors := [], nativeCalls := [(some 7, [1, 2, 3])], retval := .undef }
    from rfl] at hcontra
  simp [jsResult] at hcontra

/-- C5 (amended): `write(bytes)` on an open handle copies the caller's byte
sequence unchanged (elements already in [0, 256) pass through verbatim)
into the transport buffer of one blocking native write; the call fails with
the write error exactly when the native call reports a negative result, and
on success it returns `undefined` (no byte count). -/
theorem write_copies_and_reports_errors
    (hid_write : Option Nat → List Nat → Int) (s : HID) (vs : List Int)
    (hvs : ∀ v ∈ vs, 0 ≤ v ∧ v < 256) :
    (writeNAN hid_write s [.arr (vs.map .num)]).map (fun o => o.nativeCalls) =
      some [(s._hidHandle, vs.map Int.toNat)] ∧
    (writeNAN hid_write s [.arr (vs.map .num)]).map (fun o => jsResult o) =
      some (if hid_write s._hidHandle (vs.map Int.toNat) < 0
            then .error "Cannot write to HID device" else .ok .undef) := by
  have hb : (vs.map fun v => (v % 256).toNat) = vs.map Int.toNat := by
    induction vs with
    | nil => rfl
    | cons x xs ih =>
      have hx := hvs x (List.mem_cons_self x xs)
      have hxs : ∀ v ∈ xs, 0 ≤ v ∧ v < 256 := fun v hv => hvs v (List.mem_cons_of_mem x hv)
      simp only [List.map_cons, ih hxs]
      congr 1
      omega
  rw [writeNAN_arr_num, hb]
  exact ⟨rfl, congrArg some (jsResult_if _ _ _ _)⟩

/-- Witness for the amended C5: `write([1,2,3])` with a native write
reporting 3 passes exactly `[1, 2, 3]` to the native layer. -/
theorem write_copies_and_reports_errors_witness :
    (writeNAN (fun _ _ => (3 : Int)) { _hidHandle := some 7, releases := 0 }
        [.arr ([1, 2, 3].map .num)]).map (fun o => o.nativeCalls) =
      some [(some 7, [1, 2, 3])] :=
  ((write_copies_and_reports_errors (fun _ _ => 3) { _hidHandle := some 7, releases := 0 }
    [1, 2, 3] (by decide)).1).trans (by decide)

/-- C7 (the code evaluated at the failing input): `setNonBlocking()` called
with zero arguments on an open handle raises the invalid-argument error,
yet — because the throw does not return from the method — still invokes
`hid_set_nonblocking` on the native handle with the defaulted value 0,
contradicting the fail-fast-without-native-call claim. -/
theorem setNonBlocking_invalid_arity_still_calls_native :
    (setNonBlockingNAN (fun _ _ => 0) { _hidHandle := some 7, releases := 0 } []).pendingErrors =
      ["Expecting a 1 to enable, 0 to disable as the first argument."] ∧
    (setNonBlockingNAN (fun _ _ => 0) { _hidHandle := some 7, releases := 0 } []).nativeCalls =
      [(some 7, 0)] :=
  ⟨rfl, rfl⟩

/-- C4: `getFeatureReport(reportId, maxLength)` on an open handle hands the
native call a transfer buffer of size `maxLength` whose first byte is
pre-seeded with the report id (narrowed to `uint8_t`); on success the
returned byte sequence is exactly the first `returnedLength` bytes the
device reported, with `returnedLength ≤ maxLength` under the native
contract that the reported length fits the buffer; a native failure (-1)
fails the call with the read error. -/
theorem getFeatureReport_seeds_and_returns
    (hid_get_feature_report : Option Nat → List Nat → Int × List Nat)
    (s : HID) (rid len : Int) (junk : Nat → Nat) (ret : Int) (out : List Nat)
    (hlen : toUint32 len ≠ 0)
    (hN : hid_get_feature_report s._hidHandle
        (seededBuf junk (toUint32 len) (toUint32 rid % 256)) = (ret, out)) :
    (getFeatureReportNAN hid_get_feature_report s [.num rid, .num len] junk).nativeCalls =
      [(s._hidHandle, seededBuf junk (toUint32 len) (toUint32 rid % 256))] ∧
    (seededBuf junk (toUint32 len) (toUint32 rid % 256)).length = toUint32 len ∧
    (seededBuf junk (toUint32 len) (toUint32 rid % 256)).head? = some (toUint32 rid % 256) ∧
    (ret = -1 →
      jsResult (getFeatureReportNAN hid_get_feature_report s [.num rid, .num len] junk) =
        .error "could not get feature report from device") ∧
    (0 ≤ ret →
      jsResult (getFeatureReportNAN hid_get_feature_report s [.num rid, .num len] junk) =
        .ok (out.take ret.toNat)) ∧
    (out.length = toUint32 len → (out.take ret.toNat).length ≤ toUint32 len) ∧
    (0 ≤ ret → ret.toNat ≤ out.length → (out.take ret.toNat).length = ret.toNat) := by
  rw [getFeatureReportNAN_num hid_get_feature_report s rid len junk hlen, hN]
  refine ⟨rfl, seededBuf_length junk _ _, seededBuf_head junk _ _ hlen, ?_, ?_, ?_, ?_⟩
  · intro hfail
    rw [jsResult_if, if_pos hfail]
  · intro hok
    rw [jsResult_if, if_neg (by omega)]
  · intro hout
    rw [List.length_take, hout]
    omega
  · intro hok hfit
    rw [List.length_take]
    omega

/-- Witness for C4 at a concrete native report of 2 bytes. -/
theorem getFeatureReport_seeds_and_returns_witness :
    (getFeatureReportNAN (fun _ b => ((2 : Int), b)) { _hidHandle := some 3, releases := 0 }
        [.num 5, .num 8] (fun _ => 0)).nativeCalls =
      [(some 3, seededBuf (fun _ => 0) (toUint32 8) (toUint32 5 % 256))] :=
  (getFeatureReport_seeds_and_returns (fun _ b => ((2 : Int), b))
    { _hidHandle := some 3, releases := 0 } 5 8 (fun _ => 0) 2
    (seededBuf (fun _ => 0) (toUint32 8) (toUint32 5 % 256)) (by decide) rfl).1

/-- C8: `getFeatureReport` raises the argument error whenever the argument
count is not exactly 2 or the requested length coerces (via `ToUint32`) to
0; such a call never delivers a successful result. -/
theorem getFeatureReport_zero_length_errors
    (hid_get_feature_report : Option Nat → List Nat → Int × List Nat)
    (s : HID) (args : List JSVal) (junk : Nat → Nat)
    (h : args.length ≠ 2 ∨ uint32Value (args.getD 1 .undef) = 0) :
    (getFeatureReportNAN hid_get_feature_report s args junk).pendingErrors ≠ [] ∧
    ∀ v, jsResult (getFeatureReportNAN hid_get_feature_report s args junk) ≠ .ok v := by
  have hc : ¬ (args.length = 2 ∧ uint32Value (args.getD 1 .undef) ≠ 0) := by
    rcases h with h | h
    · exact fun hx => h hx.1
    · exact fun hx => hx.2 h
  have hp : (getFeatureReportNAN hid_get_feature_report s args junk).pendingErrors ≠ [] := by
    show (if args.length = 2 ∧ uint32Value (args.getD 1 .undef) ≠ 0 then []
          else ["need report ID and non-zero length parameter in getFeatureReport"]) ++ _ ≠ []
    rw [if_neg hc]
    simp
  exact ⟨hp, jsResult_ne_ok_of_pending _ hp⟩

/-- Witness for C8: a length of 2^32 coerces to 0 and the call errors. -/
theorem getFeatureReport_zero_length_errors_witness :
    (getFeatureReportNAN (fun _ b => ((0 : Int), b)) { _hidHandle := some 3, releases := 0 }
        [.num 1, .num 4294967296] (fun _ => 0)).pendingErrors ≠ [] :=
  (getFeatureReport_zero_length_errors (fun _ b => ((0 : Int), b))
    { _hidHandle := some 3, releases := 0 } [.num 1, .num 4294967296] (fun _ => 0)
    (Or.inr (by decide))).1

/-- C6: the enumeration query with no arguments passes vendorId = 0 and
productId = 0 to `hid_enumerate` and returns a descriptor for every
attached device; with two numeric arguments it returns exactly the
descriptors of the devices matching the (unsigned-short-narrowed) ids,
zero meaning no filter on that component; consequently every element of the
filtered result also occurs in the unfiltered result. -/
theorem devices_default_zero_filter_superset (world : List HidDeviceInfo) (v p : Int) :
    (devicesNAN world []).nativeCalls = [(0, 0)] ∧
    (devicesNAN world []).retval = world.map descriptorOf ∧
    (∀ d, d ∈ (devicesNAN world [.num v, .num p]).retval →
      d ∈ (devicesNAN world []).retval) ∧
    (∀ y, y ∈ (devicesNAN world [.num v, .num p]).retval ↔
      ∃ x, x ∈ world ∧
        ((toInt32 v % 65536).toNat = 0 ∨ x.vendor_id = (toInt32 v % 65536).toNat) ∧
        ((toInt32 p % 65536).toNat = 0 ∨ x.product_id = (toInt32 p % 65536).toNat) ∧
        descriptorOf x = y) := by
  have hzero : (devicesNAN world []).retval = world.map descriptorOf := by
    show (hid_enumerate world ((0 : Int) % 65536).toNat ((0 : Int) % 65536).toNat).map
        descriptorOf = world.map descriptorOf
    norm_num [hid_enumerate_zero]
  refine ⟨rfl, hzero, ?_, ?_⟩
  · intro d hd
    rw [devicesNAN_two_num] at hd
    rcases List.mem_map.1 hd with ⟨x, hx, rfl⟩
    rw [hzero]
    exact List.mem_map.2 ⟨x, List.mem_of_mem_filter hx, rfl⟩
  · intro y
    rw [devicesNAN_two_num]
    constructor
    · intro hy
      rcases List.mem_map.1 hy with ⟨x, hx, rfl⟩
      rcases (mem_hid_enumerate world _ _ x).1 hx with ⟨hw, hv, hp⟩
      exact ⟨x, hw, hv, hp, rfl⟩
    · rintro ⟨x, hw, hv, hp, rfl⟩
      exact List.mem_map.2 ⟨x, (mem_hid_enumerate world _ _ x).2 ⟨hw, hv, hp⟩, rfl⟩

/-- Witness for C6 on a concrete one-device world. -/
theorem devices_default_zero_filter_superset_witness :
    (devicesNAN [sampleDevice] []).nativeCalls = [(0, 0)] :=
  (devices_default_zero_filter_superset [sampleDevice] 1133 50219).1

/-- C10 counterexample: a device whose serial number is the single wide
character U+263A (code 9786) gets the serialNumber [58] (9786 mod 256, the
truncated character), not [63] (the question-mark character), refuting the
claim that non-representable wide characters are replaced by a question
mark. -/
theorem narrow_no_question_mark_cx :
    (descriptorOf smileDevice).serialNumber = some [58] ∧
    (descriptorOf smileDevice).serialNumber ≠ some [63] := by
  refine ⟨rfl, ?_⟩
  decide

/-- C10 (amended): in every descriptor, the path, serialNumber,
manufacturer and product properties are present exactly when the
corresponding native field is non-null (absent otherwise), the numeric
properties are always present with the native values, and each
wide-character string is narrowed character by character by truncation
modulo 2^8 (the path, already narrow, is copied verbatim; the question-mark
default in the source is never used because narrowing a char stream is the
identity). -/
theorem device_descriptor_fields (d : HidDeviceInfo) :
    ((descriptorOf d).path.isSome ↔ d.path.isSome) ∧
    ((descriptorOf d).serialNumber.isSome ↔ d.serial_number.isSome) ∧
    ((descriptorOf d).manufacturer.isSome ↔ d.manufacturer_string.isSome) ∧
    ((descriptorOf d).product.isSome ↔ d.product_string.isSome) ∧
    (descriptorOf d).vendorId = d.vendor_id ∧
    (descriptorOf d).productId = d.product_id ∧
    (descriptorOf d).release = d.release_number ∧
    (descriptorOf d).interface = d.interface_number ∧
    (descriptorOf d).usagePage = d.usage_page ∧
    (descriptorOf d).usage = d.usage ∧
    (∀ ws, d.serial_number = some ws →
      (descriptorOf d).serialNumber = some (ws.map fun c => c % 256)) ∧
    (∀ ws, d.manufacturer_string = some ws →
      (descriptorOf d).manufacturer = some (ws.map fun c => c % 256)) ∧
    (∀ ws, d.product_string = some ws →
      (descriptorOf d).product = some (ws.map fun c => c % 256)) ∧
    (∀ ps, d.path = some ps → (descriptorOf d).path = some ps) := by
  refine ⟨?_, ?_, ?_, ?_, rfl, rfl, rfl, rfl, rfl, rfl, ?_, ?_, ?_, ?_⟩
  · simp [descriptorOf]
  · simp [descriptorOf]
  · simp [descriptorOf]
  · simp [descriptorOf]
  · intro ws h
    simp [descriptorOf, narrow, h]
  · intro ws h
    simp [descriptorOf, narrow, h]
  · intro ws h
    simp [descriptorOf, narrow, h]
  · intro ps h
    simp [descriptorOf, h]

/-- Witness for the amended C10 at a concrete device record. -/
theorem device_descriptor_fields_witness :
    (descriptorOf sampleDevice).path = some [47] :=
  ((device_descriptor_fields sampleDevice).2.2.2.2.2.2.2.2.2.2.2.2.2 [47] rfl)

end NodeHID
